import Mathlib

/-!
Shallow embedding of the mcp-key-server backend (src/backend) in Lean 4.

The data model follows src/backend/models.py and src/backend/schemas.py;
the operations follow the route handlers in src/backend/routers/keys.py and
src/backend/routers/npm.py.  The database session is modelled as an explicit
`Store` value threaded through the mutating operations; a SQLAlchemy
`query(...).filter(cond).first()` becomes `List.find?`, `query(...).filter(...)
.all()` becomes `List.filter`, JSON maps become association lists, and
timestamps become natural numbers supplied by the caller as `now`.
-/

namespace MCP

/-- JSON object values (`Dict[str, Any]` in the schemas) modelled as an
association list from string keys to string values; none of the handlers
inspect the values, so this representation is sufficient. -/
abbrev JsonObject := List (String × String)

/-- A user record (models.py `User`), restricted to the fields the key and
npm route handlers read: `id`, `is_active`, `is_admin`. -/
structure User where
  id : Nat
  is_active : Bool
  is_admin : Bool
deriving DecidableEq, Repr

/-- An API key row (models.py `ApiKey`). -/
structure ApiKey where
  id : Nat
  name : String
  key : String
  service : String
  description : Option String
  is_active : Bool
  metadata : Option JsonObject
  owner_id : Nat
  created_at : Nat
  updated_at : Option Nat
deriving DecidableEq, Repr

/-- An npm package row (models.py `NpmPackage`). -/
structure NpmPackage where
  id : Nat
  name : String
  version : String
  description : Option String
  is_private : Bool
  package_json : Option JsonObject
  owner_id : Nat
  created_at : Nat
  updated_at : Option Nat
deriving DecidableEq, Repr

/-- The error outcomes the handlers can surface (spec section 7 taxonomy,
restricted to the errors the key/npm routers raise). -/
inductive ApiError where
  | NotFound
  | Forbidden
  | DuplicateResource
  | ValidationError
  | ManifestReadError
deriving DecidableEq, Repr

/-- The credential store: the `api_keys` and `npm_packages` tables plus the
autoincrement counters for their integer primary keys. -/
structure Store where
  api_keys : List ApiKey
  npm_packages : List NpmPackage
  next_key_id : Nat
  next_pkg_id : Nat
deriving DecidableEq, Repr

/- ---------------- schemas.py ---------------- -/

/-- schemas.py `ApiKeyCreate` after pydantic validation: `name`, `key`,
`service` are plain `str` fields, `description`/`metadata` optional,
`is_active` defaults to true. -/
structure ApiKeyCreate where
  name : String
  key : String
  service : String
  description : Option String
  is_active : Bool
  metadata : Option JsonObject
deriving DecidableEq, Repr

/-- A raw JSON body for API-key creation, before pydantic validation:
every field may be absent. -/
structure ApiKeyCreateRaw where
  name : Option String
  key : Option String
  service : Option String
  description : Option String
  is_active : Option Bool
  metadata : Option JsonObject
deriving DecidableEq, Repr

/-- Pydantic validation of `ApiKeyCreate` (schemas.py lines 38-47): the
required `str` fields `name`, `key`, `service` must be present; pydantic
`str` imposes no non-emptiness constraint, so any present string (empty
included) is accepted.  `is_active` defaults to `True` when absent. -/
def validateApiKeyCreate (r : ApiKeyCreateRaw) : Except ApiError ApiKeyCreate :=
  match r.name, r.key, r.service with
  | some n, some k, some sv =>
      .ok { name := n, key := k, service := sv, description := r.description,
            is_active := r.is_active.getD true, metadata := r.metadata }
  | _, _, _ => .error .ValidationError

/-- schemas.py `ApiKeyUpdate`: every field optional, defaulting to `None`. -/
structure ApiKeyUpdate where
  name : Option String := none
  service : Option String := none
  description : Option String := none
  is_active : Option Bool := none
  metadata : Option JsonObject := none
deriving DecidableEq, Repr

/-- schemas.py `NpmPackageCreate`. -/
structure NpmPackageCreate where
  name : String
  version : String
  description : Option String
  is_private : Bool
  package_json : Option JsonObject
deriving DecidableEq, Repr

/-- schemas.py `NpmPackageUpdate`: only `version`, `description`,
`is_private`, `package_json` are exposed; `name` and `owner_id` have no
update field. -/
structure NpmPackageUpdate where
  version : Option String := none
  description : Option String := none
  is_private : Option Bool := none
  package_json : Option JsonObject := none
deriving DecidableEq, Repr

/- ---------------- routers/keys.py ---------------- -/

/-- keys.py `create_api_key` (lines 14-31): builds a row from the validated
input with `owner_id = current_user.id`, inserts and commits it.  The
database assigns the next primary key and the creation timestamp `now`. -/
def create_api_key (api_key : ApiKeyCreate) (current_user : User) (now : Nat)
    (s : Store) : Store × ApiKey :=
  let db_api_key : ApiKey :=
    { id := s.next_key_id, name := api_key.name, key := api_key.key,
      service := api_key.service, description := api_key.description,
      is_active := api_key.is_active, metadata := api_key.metadata,
      owner_id := current_user.id, created_at := now, updated_at := none }
  ({ s with api_keys := s.api_keys ++ [db_api_key],
            next_key_id := s.next_key_id + 1 }, db_api_key)

/-- keys.py `get_api_keys` (lines 34-48): keys owned by the caller; the
`service` filter is applied under Python truthiness (`if service:`), so an
empty string skips it; the `is_active` filter is applied when not `None`. -/
def get_api_keys (service : Option String) (is_active : Option Bool)
    (current_user : User) (s : Store) : List ApiKey :=
  let q0 := s.api_keys.filter (fun k => k.owner_id == current_user.id)
  let q1 := match service with
    | some sv => if sv == "" then q0 else q0.filter (fun k => k.service == sv)
    | none => q0
  match is_active with
  | some b => q1.filter (fun k => k.is_active == b)
  | none => q1

/-- keys.py `get_api_key` (lines 70-83): `first()` on the id filter, 404 if
absent, 403 if the caller is neither owner nor admin. -/
def get_api_key (key_id : Nat) (current_user : User) (s : Store) :
    Except ApiError ApiKey :=
  match s.api_keys.find? (fun k => k.id == key_id) with
  | none => .error .NotFound
  | some db_api_key =>
      if db_api_key.owner_id != current_user.id && !current_user.is_admin then
        .error .Forbidden
      else
        .ok db_api_key

/-- The field assignments of keys.py `update_api_key` (lines 100-110): each
field of the payload is applied exactly when it `is not None`. -/
def applyApiKeyUpdate (k : ApiKey) (u : ApiKeyUpdate) : ApiKey :=
  { k with
    name := match u.name with | some v => v | none => k.name,
    service := match u.service with | some v => v | none => k.service,
    description := match u.description with | some v => some v | none => k.description,
    is_active := match u.is_active with | some v => v | none => k.is_active,
    metadata := match u.metadata with | some v => some v | none => k.metadata }

/-- keys.py `update_api_key` (lines 86-114): 404 if absent, 403 if neither
owner nor admin, otherwise applies the present payload fields and commits;
the database stamps `updated_at` with `now`. -/
def update_api_key (key_id : Nat) (api_key_update : ApiKeyUpdate)
    (current_user : User) (now : Nat) (s : Store) :
    Store × Except ApiError ApiKey :=
  match s.api_keys.find? (fun k => k.id == key_id) with
  | none => (s, .error .NotFound)
  | some db_api_key =>
      if db_api_key.owner_id != current_user.id && !current_user.is_admin then
        (s, .error .Forbidden)
      else
        let k2 := { applyApiKeyUpdate db_api_key api_key_update with
                    updated_at := some now }
        ({ s with api_keys :=
             s.api_keys.map (fun x => if x.id == key_id then k2 else x) },
         .ok k2)

/-- keys.py `delete_api_key` (lines 117-133): 404 if absent, 403 if neither
owner nor admin, otherwise removes the row and commits. -/
def delete_api_key (key_id : Nat) (current_user : User) (s : Store) :
    Store × Except ApiError Unit :=
  match s.api_keys.find? (fun k => k.id == key_id) with
  | none => (s, .error .NotFound)
  | some db_api_key =>
      if db_api_key.owner_id != current_user.id && !current_user.is_admin then
        (s, .error .Forbidden)
      else
        ({ s with api_keys := s.api_keys.filter (fun x => !(x.id == key_id)) },
         .ok ())

/- ---------------- routers/npm.py ---------------- -/

/-- npm.py `create_npm_package` (lines 48-74): first queries for an existing
row with the same `name`, `version` and `owner_id` as the input under the
calling user; if one exists it raises 400 "Package already exists", otherwise
it inserts a new row owned by the caller and commits. -/
def create_npm_package (package : NpmPackageCreate) (current_user : User)
    (now : Nat) (s : Store) : Store × Except ApiError NpmPackage :=
  match s.npm_packages.find? (fun p =>
      p.name == package.name && p.version == package.version &&
      p.owner_id == current_user.id) with
  | some _ => (s, .error .DuplicateResource)
  | none =>
      let db_package : NpmPackage :=
        { id := s.next_pkg_id, name := package.name, version := package.version,
          description := package.description, is_private := package.is_private,
          package_json := package.package_json, owner_id := current_user.id,
          created_at := now, updated_at := none }
      ({ s with npm_packages := s.npm_packages ++ [db_package],
                next_pkg_id := s.next_pkg_id + 1 },
       .ok db_package)

/-- npm.py `get_npm_package` (lines 94-107): `first()` on the id filter, 404
if absent, 403 if the caller is neither owner nor admin. -/
def get_npm_package (package_id : Nat) (current_user : User) (s : Store) :
    Except ApiError NpmPackage :=
  match s.npm_packages.find? (fun p => p.id == package_id) with
  | none => .error .NotFound
  | some db_package =>
      if db_package.owner_id != current_user.id && !current_user.is_admin then
        .error .Forbidden
      else
        .ok db_package

/-- The field assignments of npm.py `update_npm_package` (lines 124-132):
only `version`, `description`, `is_private` and `package_json` can be
assigned, each exactly when the payload field `is not None`. -/
def applyNpmPackageUpdate (p : NpmPackage) (u : NpmPackageUpdate) : NpmPackage :=
  { p with
    version := match u.version with | some v => v | none => p.version,
    description := match u.description with | some v => some v | none => p.description,
    is_private := match u.is_private with | some v => v | none => p.is_private,
    package_json := match u.package_json with | some v => some v | none => p.package_json }

/-- npm.py `update_npm_package` (lines 110-136): 404 if absent, 403 if
neither owner nor admin, otherwise applies the present payload fields and
commits; the database stamps `updated_at` with `now`. -/
def update_npm_package (package_id : Nat) (package_update : NpmPackageUpdate)
    (current_user : User) (now : Nat) (s : Store) :
    Store × Except ApiError NpmPackage :=
  match s.npm_packages.find? (fun p => p.id == package_id) with
  | none => (s, .error .NotFound)
  | some db_package =>
      if db_package.owner_id != current_user.id && !current_user.is_admin then
        (s, .error .Forbidden)
      else
        let p2 := { applyNpmPackageUpdate db_package package_update with
                    updated_at := some now }
        ({ s with npm_packages :=
             s.npm_packages.map (fun x => if x.id == package_id then p2 else x) },
         .ok p2)

/-- npm.py `delete_npm_package` (lines 139-155): 404 if absent, 403 if
neither owner nor admin, otherwise removes the row and commits. -/
def delete_npm_package (package_id : Nat) (current_user : User) (s : Store) :
    Store × Except ApiError Unit :=
  match s.npm_packages.find? (fun p => p.id == package_id) with
  | none => (s, .error .NotFound)
  | some db_package =>
      if db_package.owner_id != current_user.id && !current_user.is_admin then
        (s, .error .Forbidden)
      else
        ({ s with npm_packages :=
             s.npm_packages.filter (fun x => !(x.id == package_id)) },
         .ok ())

/- ---------------- npm.py list_installed_packages ---------------- -/

/-- The parsed content of the cache directory's `package.json`: its
`dependencies` and `devDependencies` maps of name to version-spec string
(each defaulting to the empty map via `.get(..., {})`). -/
structure PackageData where
  dependencies : List (String × String)
  devDependencies : List (String × String)
deriving DecidableEq, Repr

/-- The state of the manifest file on disk: missing, present but not
parseable as a JSON object, or parsed. -/
inductive ManifestFile where
  | absent
  | unparseable
  | parsed (d : PackageData)
deriving DecidableEq, Repr

/-- The filesystem state `list_installed_packages` observes: whether the npm
cache directory exists and the state of `package.json` inside it. -/
structure NpmCache where
  cacheDirExists : Bool
  manifest : ManifestFile
deriving DecidableEq, Repr

/-- One entry of the `/installed` response. -/
structure InstalledPackage where
  name : String
  version : String
  dev : Bool
deriving DecidableEq, Repr

/-- npm.py `list_installed_packages` (lines 176-207): empty list if the
cache directory does not exist; empty list if `package.json` does not exist;
on a parse failure, 500 "Failed to read package.json"; otherwise one entry
per regular dependency with `dev = false` followed by one entry per dev
dependency with `dev = true`. -/
def list_installed_packages (c : NpmCache) :
    Except ApiError (List InstalledPackage) :=
  if !c.cacheDirExists then
    .ok []
  else
    match c.manifest with
    | .absent => .ok []
    | .unparseable => .error .ManifestReadError
    | .parsed d =>
        .ok (d.dependencies.map (fun nv =>
               { name := nv.1, version := nv.2, dev := false }) ++
             d.devDependencies.map (fun nv =>
               { name := nv.1, version := nv.2, dev := true }))

/- ---------------- concrete fixtures for witnesses ---------------- -/

/-- A regular user who owns the fixture resources. -/
def aliceU : User := { id := 1, is_active := true, is_admin := false }

/-- A regular user who owns nothing in the fixture store. -/
def bobU : User := { id := 2, is_active := true, is_admin := false }

/-- An admin user. -/
def adminU : User := { id := 9, is_active := true, is_admin := true }

/-- A fixture API key owned by `aliceU`. -/
def key1 : ApiKey :=
  { id := 1, name := "gh", key := "abc", service := "github",
    description := none, is_active := true, metadata := none,
    owner_id := 1, created_at := 0, updated_at := none }

/-- A fixture npm package owned by `aliceU`. -/
def pkg1 : NpmPackage :=
  { id := 1, name := "left-pad", version := "1.0.0",
    description := none, is_private := false, package_json := none,
    owner_id := 1, created_at := 0, updated_at := none }

/-- A fixture store holding `key1` and `pkg1`. -/
def store1 : Store :=
  { api_keys := [key1], npm_packages := [pkg1],
    next_key_id := 2, next_pkg_id := 2 }

/- ---------------- helper lemmas ---------------- -/

/-- The boolean guard shared by all six ownership checks, as a proposition:
`owner_id != current_user.id and not current_user.is_admin`. -/
theorem forbidden_cond_iff (a b : Nat) (adm : Bool) :
    ((a != b && !adm) = true) ↔ (a ≠ b ∧ adm = false) := by
  cases adm <;> simp [bne_iff_ne]

/- ---------------- claims ---------------- -/

/-- C1: for every user `u` and every ApiKey `k` / NpmPackage `p` present in
the store, the get, update and delete operations return `Forbidden` if and
only if the resource's `owner_id` differs from `u.id` and `u` is not an
admin; an owner or an admin is never denied. -/
theorem owner_or_admin_gate (u : User) (s : Store) (k : ApiKey)
    (p : NpmPackage) (upd : ApiKeyUpdate) (pupd : NpmPackageUpdate) (now : Nat)
    (hk : s.api_keys.find? (fun x => x.id == k.id) = some k)
    (hp : s.npm_packages.find? (fun x => x.id == p.id) = some p) :
    (get_api_key k.id u s = .error .Forbidden ↔
      (k.owner_id ≠ u.id ∧ u.is_admin = false)) ∧
    ((update_api_key k.id upd u now s).snd = .error .Forbidden ↔
      (k.owner_id ≠ u.id ∧ u.is_admin = false)) ∧
    ((delete_api_key k.id u s).snd = .error .Forbidden ↔
      (k.owner_id ≠ u.id ∧ u.is_admin = false)) ∧
    (get_npm_package p.id u s = .error .Forbidden ↔
      (p.owner_id ≠ u.id ∧ u.is_admin = false)) ∧
    ((update_npm_package p.id pupd u now s).snd = .error .Forbidden ↔
      (p.owner_id ≠ u.id ∧ u.is_admin = false)) ∧
    ((delete_npm_package p.id u s).snd = .error .Forbidden ↔
      (p.owner_id ≠ u.id ∧ u.is_admin = false)) := by
  refine ⟨?_, ?_, ?_, ?_, ?_, ?_⟩
  · rw [← forbidden_cond_iff k.owner_id u.id u.is_admin]
    unfold get_api_key; rw [hk]
    cases hdec : (k.owner_id != u.id && !u.is_admin) <;> simp [hdec]
  · rw [← forbidden_cond_iff k.owner_id u.id u.is_admin]
    unfold update_api_key; rw [hk]
    cases hdec : (k.owner_id != u.id && !u.is_admin) <;> simp [hdec]
  · rw [← forbidden_cond_iff k.owner_id u.id u.is_admin]
    unfold delete_api_key; rw [hk]
    cases hdec : (k.owner_id != u.id && !u.is_admin) <;> simp [hdec]
  · rw [← forbidden_cond_iff p.owner_id u.id u.is_admin]
    unfold get_npm_package; rw [hp]
    cases hdec : (p.owner_id != u.id && !u.is_admin) <;> simp [hdec]
  · rw [← forbidden_cond_iff p.owner_id u.id u.is_admin]
    unfold update_npm_package; rw [hp]
    cases hdec : (p.owner_id != u.id && !u.is_admin) <;> simp [hdec]
  · rw [← forbidden_cond_iff p.owner_id u.id u.is_admin]
    unfold delete_npm_package; rw [hp]
    cases hdec : (p.owner_id != u.id && !u.is_admin) <;> simp [hdec]

/-- C1 witness: in the fixture store, the non-owner non-admin `bobU` is
denied on all six operations, and the owner `aliceU` is not denied on get. -/
theorem owner_or_admin_gate_witness :
    (get_api_key 1 bobU store1 = .error .Forbidden) ∧
    ((update_api_key 1 {} bobU 5 store1).snd = .error .Forbidden) ∧
    ((delete_api_key 1 bobU store1).snd = .error .Forbidden) ∧
    (get_npm_package 1 bobU store1 = .error .Forbidden) ∧
    ((update_npm_package 1 {} bobU 5 store1).snd = .error .Forbidden) ∧
    ((delete_npm_package 1 bobU store1).snd = .error .Forbidden) ∧
    ¬(get_api_key 1 aliceU store1 = .error .Forbidden) := by
  have hb := owner_or_admin_gate bobU store1 key1 pkg1 {} {} 5
    (by rfl) (by rfl)
  have ha := owner_or_admin_gate aliceU store1 key1 pkg1 {} {} 5
    (by rfl) (by rfl)
  exact ⟨hb.1.mpr (by decide), hb.2.1.mpr (by decide), hb.2.2.1.mpr (by decide),
         hb.2.2.2.1.mpr (by decide), hb.2.2.2.2.1.mpr (by decide),
         hb.2.2.2.2.2.mpr (by decide),
         fun h => (ha.1.mp h).1 (by decide)⟩

/-- C2: for every user `u` (owner, non-owner or admin alike) and every id
matching no stored ApiKey / NpmPackage, the get, update and delete
operations return `NotFound` (not `Forbidden`): existence is checked before
authorization. -/
theorem missing_resource_not_found (u : User) (s : Store) (i j now : Nat)
    (upd : ApiKeyUpdate) (pupd : NpmPackageUpdate)
    (hk : s.api_keys.find? (fun x => x.id == i) = none)
    (hp : s.npm_packages.find? (fun x => x.id == j) = none) :
    get_api_key i u s = .error .NotFound ∧
    (update_api_key i upd u now s).snd = .error .NotFound ∧
    (delete_api_key i u s).snd = .error .NotFound ∧
    get_npm_package j u s = .error .NotFound ∧
    (update_npm_package j pupd u now s).snd = .error .NotFound ∧
    (delete_npm_package j u s).snd = .error .NotFound := by
  refine ⟨?_, ?_, ?_, ?_, ?_, ?_⟩
  · unfold get_api_key; rw [hk]
  · unfold update_api_key; rw [hk]
  · unfold delete_api_key; rw [hk]
  · unfold get_npm_package; rw [hp]
  · unfold update_npm_package; rw [hp]
  · unfold delete_npm_package; rw [hp]

/-- C2 witness: an id absent from the fixture store yields `NotFound` on all
six operations even for the unprivileged non-owner `bobU`. -/
theorem missing_resource_not_found_witness :
    get_api_key 42 bobU store1 = .error .NotFound ∧
    (update_api_key 42 {} bobU 5 store1).snd = .error .NotFound ∧
    (delete_api_key 42 bobU store1).snd = .error .NotFound ∧
    get_npm_package 42 bobU store1 = .error .NotFound ∧
    (update_npm_package 42 {} bobU 5 store1).snd = .error .NotFound ∧
    (delete_npm_package 42 bobU store1).snd = .error .NotFound :=
  missing_resource_not_found bobU store1 42 42 5 {} {} (by rfl) (by rfl)

/-- C3: for every stored ApiKey `k` and update payload applied by an
authorized user, the update applies exactly the payload fields that are
present and leaves absent fields (and the non-updatable `key`, `id`,
`owner_id`, `created_at` fields) unchanged; presence, not truthiness,
decides, so a present empty string or `false` is applied. -/
theorem partial_update_presence (u : User) (s : Store) (k : ApiKey)
    (upd : ApiKeyUpdate) (now : Nat)
    (hk : s.api_keys.find? (fun x => x.id == k.id) = some k)
    (hauth : k.owner_id = u.id ∨ u.is_admin = true) :
    ∃ k', (update_api_key k.id upd u now s).snd = .ok k' ∧
      ((∀ v, upd.name = some v → k'.name = v) ∧
       (upd.name = none → k'.name = k.name)) ∧
      ((∀ v, upd.service = some v → k'.service = v) ∧
       (upd.service = none → k'.service = k.service)) ∧
      ((∀ v, upd.description = some v → k'.description = some v) ∧
       (upd.description = none → k'.description = k.description)) ∧
      ((∀ v, upd.is_active = some v → k'.is_active = v) ∧
       (upd.is_active = none → k'.is_active = k.is_active)) ∧
      ((∀ v, upd.metadata = some v → k'.metadata = some v) ∧
       (upd.metadata = none → k'.metadata = k.metadata)) ∧
      k'.key = k.key ∧ k'.id = k.id ∧ k'.owner_id = k.owner_id ∧
      k'.created_at = k.created_at := by
  have hg : (k.owner_id != u.id && !u.is_admin) = false := by
    rcases hauth with h | h <;> simp [h]
  refine ⟨{ applyApiKeyUpdate k upd with updated_at := some now }, ?_,
    ⟨fun v hv => by simp [applyApiKeyUpdate, hv],
     fun hv => by simp [applyApiKeyUpdate, hv]⟩,
    ⟨fun v hv => by simp [applyApiKeyUpdate, hv],
     fun hv => by simp [applyApiKeyUpdate, hv]⟩,
    ⟨fun v hv => by simp [applyApiKeyUpdate, hv],
     fun hv => by simp [applyApiKeyUpdate, hv]⟩,
    ⟨fun v hv => by simp [applyApiKeyUpdate, hv],
     fun hv => by simp [applyApiKeyUpdate, hv]⟩,
    ⟨fun v hv => by simp [applyApiKeyUpdate, hv],
     fun hv => by simp [applyApiKeyUpdate, hv]⟩,
    by simp [applyApiKeyUpdate], by simp [applyApiKeyUpdate],
    by simp [applyApiKeyUpdate], by simp [applyApiKeyUpdate]⟩
  unfold update_api_key
  rw [hk]
  simp [hg]

/-- C3 witness: updating `key1` with a present empty-string `name` and a
present `false` `is_active` applies both (presence, not truthiness), while
the absent `service` field and the non-updatable `key` stay unchanged. -/
theorem partial_update_presence_witness :
    ∃ k', (update_api_key 1 { name := some "", is_active := some false }
             aliceU 5 store1).snd = .ok k' ∧
      k'.name = "" ∧ k'.is_active = false ∧
      k'.service = key1.service ∧ k'.key = key1.key := by
  obtain ⟨k', hres, hname, hserv, _, hact, _, hkey, _⟩ :=
    partial_update_presence aliceU store1 key1
      { name := some "", is_active := some false } 5 (by rfl)
      (Or.inl (by decide))
  exact ⟨k', hres, hname.1 "" rfl, hact.1 false rfl, hserv.2 rfl, hkey⟩

/-- C9: for every stored NpmPackage and every update payload applied by any
user, a successful update never changes the package's `name`, `owner_id`
(or `id`): the update schema exposes only `version`, `description`,
`is_private` and `package_json`. -/
theorem npm_update_preserves_name_owner (u : User) (s : Store)
    (p : NpmPackage) (pupd : NpmPackageUpdate) (now : Nat)
    (hp : s.npm_packages.find? (fun x => x.id == p.id) = some p) :
    ∀ s' p', update_npm_package p.id pupd u now s = (s', .ok p') →
      p'.name = p.name ∧ p'.owner_id = p.owner_id ∧ p'.id = p.id ∧
      p'.created_at = p.created_at := by
  intro s' p' h
  unfold update_npm_package at h
  rw [hp] at h
  cases hdec : (p.owner_id != u.id && !u.is_admin) with
  | true => simp [hdec] at h
  | false =>
      simp [hdec] at h
      obtain ⟨-, h2⟩ := h
      rw [← h2]
      simp [applyNpmPackageUpdate]

/-- The result row of updating `pkg1`'s version to `2.0.0` at time 5. -/
def pkg1v2 : NpmPackage :=
  { id := 1, name := "left-pad", version := "2.0.0",
    description := none, is_private := false, package_json := none,
    owner_id := 1, created_at := 0, updated_at := some 5 }

/-- The fixture store after that update. -/
def store1v2 : Store :=
  { api_keys := [key1], npm_packages := [pkg1v2],
    next_key_id := 2, next_pkg_id := 2 }

/-- C9 witness: updating `pkg1`'s version as its owner returns `pkg1v2`,
whose `name`, `owner_id`, `id` and `created_at` equal `pkg1`'s. -/
theorem npm_update_preserves_name_owner_witness :
    pkg1v2.name = pkg1.name ∧ pkg1v2.owner_id = pkg1.owner_id ∧
    pkg1v2.id = pkg1.id ∧ pkg1v2.created_at = pkg1.created_at :=
  npm_update_preserves_name_owner aliceU store1 pkg1
    { version := some "2.0.0" } 5 (by rfl) store1v2 pkg1v2 (by rfl)

/-- An empty fixture store. -/
def store0 : Store :=
  { api_keys := [], npm_packages := [], next_key_id := 1, next_pkg_id := 1 }

/-- A fixture npm-package creation input. -/
def npmInp1 : NpmPackageCreate :=
  { name := "left-pad", version := "1.0.0", description := none,
    is_private := false, package_json := none }

/-- The row produced by creating `npmInp1` in `store0` as `aliceU`. -/
def pkgA : NpmPackage :=
  { id := 1, name := "left-pad", version := "1.0.0", description := none,
    is_private := false, package_json := none, owner_id := 1,
    created_at := 0, updated_at := none }

/-- `store0` after that creation. -/
def storeA : Store :=
  { api_keys := [], npm_packages := [pkgA], next_key_id := 1, next_pkg_id := 2 }

/-- C4: npm package creation fails with `DuplicateResource` exactly when a
stored record matches (name, version, owner) of the input under the calling
owner; and after a successful create, repeating the identical create fails
with `DuplicateResource` and leaves the store unchanged (no second row). -/
theorem npm_create_duplicate (inp : NpmPackageCreate) (u : User) (now : Nat)
    (s : Store) :
    ((create_npm_package inp u now s).snd = .error .DuplicateResource ↔
      ∃ p ∈ s.npm_packages,
        p.name = inp.name ∧ p.version = inp.version ∧ p.owner_id = u.id) ∧
    (∀ s' r now2, create_npm_package inp u now s = (s', .ok r) →
      create_npm_package inp u now2 s' = (s', .error .DuplicateResource)) := by
  constructor
  · unfold create_npm_package
    cases hfind : s.npm_packages.find? (fun p =>
        p.name == inp.name && p.version == inp.version &&
        p.owner_id == u.id) with
    | none =>
        simp
        intro p hmem h1 h2 h3
        have hx := List.find?_eq_none.mp hfind p hmem
        simp [h1, h2, h3] at hx
    | some q =>
        simp
        refine ⟨q, List.mem_of_find?_eq_some hfind, ?_⟩
        have hx := List.find?_some hfind
        simp at hx
        exact ⟨hx.1.1, hx.1.2, hx.2⟩
  · intro s' r now2 h
    unfold create_npm_package at h
    cases hfind : s.npm_packages.find? (fun p =>
        p.name == inp.name && p.version == inp.version &&
        p.owner_id == u.id) with
    | some q => rw [hfind] at h; simp at h
    | none =>
        rw [hfind] at h
        simp at h
        obtain ⟨hs', hr⟩ := h
        unfold create_npm_package
        rw [← hs']
        simp [List.find?_append, hfind]

/-- C4 witness: creating `npmInp1` in the empty store succeeds with row
`pkgA` and store `storeA`; the identical second create returns
`DuplicateResource` and returns `storeA` unchanged. -/
theorem npm_create_duplicate_witness :
    create_npm_package npmInp1 aliceU 1 storeA =
      (storeA, .error .DuplicateResource) :=
  (npm_create_duplicate npmInp1 aliceU 0 store0).2 storeA pkgA 1 (by rfl)

/-- C5 counterexample: with the empty-string service filter, the caller's
key with service `github` is returned, so the list is not the set of the
caller's keys whose service equals the filter value: Python truthiness
(`if service:`) skips the filter for the empty string. -/
theorem service_filter_empty_counterexample :
    get_api_keys (some "") none aliceU store1 ≠
      store1.api_keys.filter (fun k =>
        k.owner_id == aliceU.id && k.service == "") := by decide

/-- C5 amended: for every non-empty service filter `sv`, the list returns
exactly the caller's keys whose `service` equals `sv`, AND-combined with the
`is_active` equality filter when present, excluding other owners' keys; for
the empty string the service filter is skipped and only the ownership (and
`is_active`) restriction applies. -/
theorem service_filter_amended (sv : String) (b : Bool) (u : User) (s : Store)
    (hsv : sv ≠ "") :
    get_api_keys (some sv) (some b) u s =
      s.api_keys.filter (fun k =>
        k.owner_id == u.id && (k.service == sv && k.is_active == b)) ∧
    get_api_keys (some sv) none u s =
      s.api_keys.filter (fun k => k.owner_id == u.id && k.service == sv) ∧
    get_api_keys (some "") (some b) u s =
      s.api_keys.filter (fun k => k.owner_id == u.id && k.is_active == b) := by
  have hbe : (sv == "") = false := by simpa using hsv
  refine ⟨?_, ?_, ?_⟩
  · unfold get_api_keys
    simp only [hbe, Bool.false_eq_true, if_false, List.filter_filter]
    exact List.filter_congr (fun (a : ApiKey) _ => by
      cases (a.owner_id == u.id) <;> cases (a.service == sv) <;>
        cases (a.is_active == b) <;> rfl)
  · unfold get_api_keys
    simp only [hbe, Bool.false_eq_true, if_false, List.filter_filter]
    exact List.filter_congr (fun (a : ApiKey) _ => by
      cases (a.owner_id == u.id) <;> cases (a.service == sv) <;> rfl)
  · unfold get_api_keys
    simp only [beq_self_eq_true, if_true, List.filter_filter]
    exact List.filter_congr (fun (a : ApiKey) _ => by
      cases (a.owner_id == u.id) <;> cases (a.is_active == b) <;> rfl)

/-- C5 witness: filtering by the non-empty service `github` over the
fixture store returns exactly `aliceU`'s matching keys. -/
theorem service_filter_amended_witness :
    "github" ≠ "" ∧
    get_api_keys (some "github") none aliceU store1 =
      store1.api_keys.filter (fun k =>
        k.owner_id == aliceU.id && k.service == "github") :=
  ⟨by decide,
   (service_filter_amended "github" true aliceU store1 (by decide)).2.1⟩

/-- C6: the installed-packages listing returns the empty list when the
cache directory or the manifest is absent, fails with `ManifestReadError`
when the manifest exists but cannot be parsed, and otherwise returns one
`dev := false` entry per regular dependency followed by one `dev := true`
entry per dev dependency, and nothing else. -/
theorem list_installed_spec (c : NpmCache) (d : PackageData) :
    (c.cacheDirExists = false → list_installed_packages c = .ok []) ∧
    (c.manifest = .absent → list_installed_packages c = .ok []) ∧
    (c.cacheDirExists = true → c.manifest = .unparseable →
      list_installed_packages c = .error .ManifestReadError) ∧
    (c.cacheDirExists = true → c.manifest = .parsed d →
      list_installed_packages c =
        .ok (d.dependencies.map (fun nv =>
               { name := nv.1, version := nv.2, dev := false }) ++
             d.devDependencies.map (fun nv =>
               { name := nv.1, version := nv.2, dev := true }))) := by
  refine ⟨?_, ?_, ?_, ?_⟩
  · intro h; unfold list_installed_packages; simp [h]
  · intro h
    unfold list_installed_packages
    cases hc : c.cacheDirExists <;> simp [h]
  · intro h1 h2; unfold list_installed_packages; simp [h1, h2]
  · intro h1 h2; unfold list_installed_packages; simp [h1, h2]

/-- A fixture manifest with one regular and one dev dependency. -/
def d0 : PackageData :=
  { dependencies := [("a", "1.0.0")], devDependencies := [("b", "2.0.0")] }

/-- C6 witness: a missing cache directory yields `[]`, an unparseable
manifest yields `ManifestReadError`, and the fixture manifest `d0` yields
its two entries tagged by origin. -/
theorem list_installed_spec_witness :
    list_installed_packages { cacheDirExists := false, manifest := .absent } =
      .ok [] ∧
    list_installed_packages { cacheDirExists := true, manifest := .unparseable } =
      .error .ManifestReadError ∧
    list_installed_packages { cacheDirExists := true, manifest := .parsed d0 } =
      .ok [{ name := "a", version := "1.0.0", dev := false },
           { name := "b", version := "2.0.0", dev := true }] :=
  ⟨(list_installed_spec { cacheDirExists := false, manifest := .absent } d0).1
     rfl,
   (list_installed_spec { cacheDirExists := true, manifest := .unparseable }
     d0).2.2.1 rfl rfl,
   (list_installed_spec { cacheDirExists := true, manifest := .parsed d0 }
     d0).2.2.2 rfl rfl⟩

/-- C7: creating an API key and then getting the returned id as the same
caller returns the stored record, whose `name`, `key`, `service`,
`description`, `is_active` and `metadata` equal the input's, whose
`owner_id` is the caller's id regardless of the input, and which carries
the assigned id and creation timestamp. -/
theorem create_then_get (inp : ApiKeyCreate) (u : User) (now : Nat) (s : Store)
    (hfresh : ∀ x ∈ s.api_keys, x.id ≠ s.next_key_id) :
    get_api_key (create_api_key inp u now s).snd.id u
        (create_api_key inp u now s).fst =
      .ok (create_api_key inp u now s).snd ∧
    (create_api_key inp u now s).snd.name = inp.name ∧
    (create_api_key inp u now s).snd.key = inp.key ∧
    (create_api_key inp u now s).snd.service = inp.service ∧
    (create_api_key inp u now s).snd.description = inp.description ∧
    (create_api_key inp u now s).snd.is_active = inp.is_active ∧
    (create_api_key inp u now s).snd.metadata = inp.metadata ∧
    (create_api_key inp u now s).snd.owner_id = u.id ∧
    (create_api_key inp u now s).snd.id = s.next_key_id ∧
    (create_api_key inp u now s).snd.created_at = now := by
  have hfind : s.api_keys.find? (fun x => x.id == s.next_key_id) = none :=
    List.find?_eq_none.mpr (fun x hx => by simpa using hfresh x hx)
  refine ⟨?_, rfl, rfl, rfl, rfl, rfl, rfl, rfl, rfl, rfl⟩
  unfold create_api_key get_api_key
  simp [List.find?_append, hfind]

/-- A fixture API-key creation input. -/
def inpGH : ApiKeyCreate :=
  { name := "gh", key := "abc", service := "github",
    description := none, is_active := true, metadata := none }

/-- C7 witness: creating `inpGH` in the fixture store as `bobU` and getting
the returned id as `bobU` returns the created record, owned by `bobU`. -/
theorem create_then_get_witness :
    get_api_key (create_api_key inpGH bobU 7 store1).snd.id bobU
        (create_api_key inpGH bobU 7 store1).fst =
      .ok (create_api_key inpGH bobU 7 store1).snd ∧
    (create_api_key inpGH bobU 7 store1).snd.owner_id = bobU.id ∧
    (create_api_key inpGH bobU 7 store1).snd.name = inpGH.name := by
  have h := create_then_get inpGH bobU 7 store1 (by decide)
  exact ⟨h.1, h.2.2.2.2.2.2.2.1, h.2.1⟩

/-- C8 amended: pydantic validation of the API-key creation input fails
with `ValidationError` exactly when one of the required fields `name`,
`key`, `service` is absent; a present value (empty string included) is
carried through unchanged. -/
theorem apikey_create_validation (r : ApiKeyCreateRaw) :
    (validateApiKeyCreate r = .error .ValidationError ↔
      (r.name = none ∨ r.key = none ∨ r.service = none)) ∧
    (∀ c, validateApiKeyCreate r = .ok c →
      r.name = some c.name ∧ r.key = some c.key ∧
      r.service = some c.service) := by
  constructor
  · rcases r with ⟨n, k, sv, d, a, m⟩
    cases n <;> cases k <;> cases sv <;> simp [validateApiKeyCreate]
  · intro c h
    rcases r with ⟨n, k, sv, d, a, m⟩
    cases n <;> cases k <;> cases sv <;>
      (simp [validateApiKeyCreate] at h; try simp [← h])

/-- A raw creation body whose `name` is present but empty. -/
def rawEmptyName : ApiKeyCreateRaw :=
  { name := some "", key := some "abc", service := some "github",
    description := none, is_active := none, metadata := none }

/-- The validated input that `rawEmptyName` produces. -/
def inpEmptyName : ApiKeyCreate :=
  { name := "", key := "abc", service := "github",
    description := none, is_active := true, metadata := none }

/-- The row stored when `inpEmptyName` is created in the empty store. -/
def keyEmptyName : ApiKey :=
  { id := 1, name := "", key := "abc", service := "github",
    description := none, is_active := true, metadata := none,
    owner_id := 1, created_at := 0, updated_at := none }

/-- C8 counterexample: a creation input with an empty `name` passes
validation (no `ValidationError`) and the create operation stores the row,
contradicting the claim that empty strings are rejected. -/
theorem apikey_empty_string_counterexample :
    validateApiKeyCreate rawEmptyName = .ok inpEmptyName ∧
    (create_api_key inpEmptyName aliceU 0 store0).fst.api_keys =
      [keyEmptyName] := by
  constructor <;> rfl

/-- C8 witness: validation of `rawEmptyName` succeeds, and the theorem
recovers its present field values. -/
theorem apikey_create_validation_witness :
    rawEmptyName.name = some "" ∧ rawEmptyName.key = some "abc" ∧
    rawEmptyName.service = some "github" :=
  (apikey_create_validation rawEmptyName).2 inpEmptyName rfl

/-- C10: whenever a mutating key/package operation returns an error
(`NotFound`, `Forbidden` or `DuplicateResource` are the only possible
ones), the store it returns is the input store: the error is raised before
any insert, field assignment or delete is committed. -/
theorem error_leaves_store_unchanged (u : User) (s : Store) (i now : Nat)
    (upd : ApiKeyUpdate) (pupd : NpmPackageUpdate) (inp : NpmPackageCreate) :
    (∀ e, (update_api_key i upd u now s).snd = .error e →
      (update_api_key i upd u now s).fst = s) ∧
    (∀ e, (delete_api_key i u s).snd = .error e →
      (delete_api_key i u s).fst = s) ∧
    (∀ e, (create_npm_package inp u now s).snd = .error e →
      (create_npm_package inp u now s).fst = s) ∧
    (∀ e, (update_npm_package i pupd u now s).snd = .error e →
      (update_npm_package i pupd u now s).fst = s) ∧
    (∀ e, (delete_npm_package i u s).snd = .error e →
      (delete_npm_package i u s).fst = s) := by
  refine ⟨?_, ?_, ?_, ?_, ?_⟩
  · intro e he
    unfold update_api_key at he ⊢
    cases hfind : s.api_keys.find? (fun k => k.id == i) with
    | none => rfl
    | some k =>
        rw [hfind] at he
        cases hdec : (k.owner_id != u.id && !u.is_admin) with
        | true => simp [hdec]
        | false => simp [hdec] at he
  · intro e he
    unfold delete_api_key at he ⊢
    cases hfind : s.api_keys.find? (fun k => k.id == i) with
    | none => rfl
    | some k =>
        rw [hfind] at he
        cases hdec : (k.owner_id != u.id && !u.is_admin) with
        | true => simp [hdec]
        | false => simp [hdec] at he
  · intro e he
    unfold create_npm_package at he ⊢
    cases hfind : s.npm_packages.find? (fun p =>
        p.name == inp.name && p.version == inp.version &&
        p.owner_id == u.id) with
    | some q => rfl
    | none => rw [hfind] at he; simp at he
  · intro e he
    unfold update_npm_package at he ⊢
    cases hfind : s.npm_packages.find? (fun p => p.id == i) with
    | none => rfl
    | some p =>
        rw [hfind] at he
        cases hdec : (p.owner_id != u.id && !u.is_admin) with
        | true => simp [hdec]
        | false => simp [hdec] at he
  · intro e he
    unfold delete_npm_package at he ⊢
    cases hfind : s.npm_packages.find? (fun p => p.id == i) with
    | none => rfl
    | some p =>
        rw [hfind] at he
        cases hdec : (p.owner_id != u.id && !u.is_admin) with
        | true => simp [hdec]
        | false => simp [hdec] at he

/-- C10 witness: a `NotFound` update, a `Forbidden` delete and a
`DuplicateResource` create each return their input store unchanged. -/
theorem error_leaves_store_unchanged_witness :
    (update_api_key 42 {} bobU 5 store1).fst = store1 ∧
    (delete_api_key 1 bobU store1).fst = store1 ∧
    (create_npm_package npmInp1 aliceU 1 storeA).fst = storeA := by
  refine ⟨?_, ?_, ?_⟩
  · exact (error_leaves_store_unchanged bobU store1 42 5 {} {} npmInp1).1
      .NotFound (by rfl)
  · exact (error_leaves_store_unchanged bobU store1 1 5 {} {} npmInp1).2.1
      .Forbidden (by rfl)
  · exact (error_leaves_store_unchanged aliceU storeA 1 1 {} {} npmInp1).2.2.1
      .DuplicateResource (by rfl)

end MCP
